import Mathlib

/-!
Verification of the service availability monitor (`monitor.py`).

The monitor repeatedly probes a single target over HTTP, TCP or ICMP,
classifies each probe outcome against a latency threshold, accumulates
running statistics and prints a final summary on every exit path.

The embedding below translates the Python source shallowly:
* floating point times are modelled by `Rat`;
* each prober interacts with the outside world (the HTTP response, the
  socket connect, the ping subprocess); this interaction is modelled by an
  explicit event datatype whose constructors are exactly the branches the
  Python code distinguishes (the `try`/`except` arms and result tests);
* the monitor loop together with the asynchronous SIGINT handler is
  modelled as a small-step machine driven by an action list.
-/

/-- Shallow embedding of `MonitorStats` (the dataclass): running aggregate
of checks, latency samples and downtime events.  `start_time` is the
`time.time()` captured in `__post_init__`. -/
structure MonitorStats where
  total_checks : Nat
  successful_checks : Nat
  failed_checks : Nat
  response_times : List Rat
  downtime_events : List String
  start_time : Rat
deriving DecidableEq, Repr

/-- `MonitorStats()` with a given construction wall-clock time: all
counters zero, both lists empty (the `__post_init__` defaults). -/
def initStats (now : Rat) : MonitorStats :=
  { total_checks := 0
    successful_checks := 0
    failed_checks := 0
    response_times := []
    downtime_events := []
    start_time := now }

/-- `MonitorStats.get_uptime_percentage`: `successful/total * 100`,
guarded to `0.0` when no check has run. -/
def get_uptime_percentage (s : MonitorStats) : Rat :=
  if s.total_checks = 0 then 0
  else ((s.successful_checks : Rat) / (s.total_checks : Rat)) * 100

/-- The `(sucesso, tempo_resposta_ms, mensagem_erro)` triple every
`_check_*` method returns. -/
structure ProbeOutcome where
  success : Bool
  response_time : Rat
  error_msg : Option String
deriving DecidableEq, Repr

/-- Python `str()` applied to an `Optional[str]` inside an f-string:
`None` renders as the literal string `"None"`. -/
def pyStrOfOpt : Option String → String
  | none => "None"
  | some s => s

/-- One loop-body statistics update (lines 298-305 of `run`): increment
`total_checks`; on success increment `successful_checks` and append the
latency sample; on failure increment `failed_checks` and append
`f"{timestamp} - {error_msg}"` to `downtime_events`. -/
def recordCheck (stats : MonitorStats) (timestamp : String) (o : ProbeOutcome) :
    MonitorStats :=
  let stats := { stats with total_checks := stats.total_checks + 1 }
  if o.success then
    { stats with
        successful_checks := stats.successful_checks + 1
        response_times := stats.response_times ++ [o.response_time] }
  else
    { stats with
        failed_checks := stats.failed_checks + 1
        downtime_events :=
          stats.downtime_events ++ [timestamp ++ " - " ++ pyStrOfOpt o.error_msg] }

/-- Folding `recordCheck` over a finite sequence of completed checks. -/
def recordAll (stats : MonitorStats) (checks : List (String × ProbeOutcome)) :
    MonitorStats :=
  checks.foldl (fun s c => recordCheck s c.1 c.2) stats

/-- Tri-state verdict the status printer distinguishes. -/
inductive Verdict where
  | UP
  | SLOW
  | DOWN
deriving DecidableEq, Repr

/-- Classification logic of `_print_status` (lines 219-233): failure is
DOWN; a success whose latency strictly exceeds the threshold is SLOW
(`response_time > self.threshold`); any other success is UP. -/
def classify (o : ProbeOutcome) (threshold : Rat) : Verdict :=
  if o.success then
    if o.response_time > threshold then Verdict.SLOW else Verdict.UP
  else Verdict.DOWN

/-- The failure detail text of `_print_status` (line 234):
`error_msg if error_msg else "Unknown error"`.  This fallback is applied
to the live display (and the DOWNTIME log line), not to the accumulator. -/
def displayErrorText : Option String → String
  | some m => m
  | none => "Unknown error"

/-- The outside-world interactions `_check_http` distinguishes: a response
arrives (with its status code and measured wall-clock latency), the request
times out, the connection fails, or some other exception is raised.  These
are exactly the branches of the method (lines 97-120). -/
inductive HttpEvent where
  | response (status : Nat) (elapsed_ms : Rat)
  | timeout
  | connectionError (cause : String)
  | otherError (cause : String)
deriving DecidableEq, Repr

/-- `_check_http` (lines 92-120): success for status codes in `[200, 400)`;
on `Timeout` the reported latency is `self.timeout * 1000`; on
`ConnectionError` latency `0` with the cause in the message; any other
exception is mapped to a generic failure. -/
def check_http (timeout : Rat) (ev : HttpEvent) : ProbeOutcome :=
  match ev with
  | .response status elapsed_ms =>
      if 200 ≤ status ∧ status < 400 then
        { success := true, response_time := elapsed_ms, error_msg := none }
      else
        { success := false, response_time := elapsed_ms
          error_msg := some ("HTTP " ++ toString status) }
  | .timeout =>
      { success := false, response_time := timeout * 1000
        error_msg := some "Timeout" }
  | .connectionError cause =>
      { success := false, response_time := 0
        error_msg := some ("Connection Error: " ++ cause) }
  | .otherError cause =>
      { success := false, response_time := 0
        error_msg := some ("Error: " ++ cause) }

/-- Split a character list at the LAST occurrence of `sep`, like Python
`s.rsplit(sep, 1)` preceded by the `sep in s` test: `none` when `sep` does
not occur. -/
def rsplitLastAux (sep : Char) : List Char → Option (List Char × List Char)
  | [] => none
  | c :: rest =>
      match rsplitLastAux sep rest with
      | some (h, p) => some (c :: h, p)
      | none => if c = sep then some ([], rest) else none

/-- `host, port = self.target.rsplit(sep, 1)` guarded by `sep in target`. -/
def rsplitLast (sep : Char) (s : String) : Option (String × String) :=
  match rsplitLastAux sep s.toList with
  | none => none
  | some (h, p) => some (⟨h⟩, ⟨p⟩)

/-- Decimal value of a digit string (all characters already checked to be
digits). -/
def digitsToNat (cs : List Char) : Nat :=
  cs.foldl (fun acc c => acc * 10 + (c.toNat - 48)) 0

/-- Python `int(s)` restricted to the common case: an optional sign
followed by one or more decimal digits.  (Surrounding whitespace and
digit-group underscores, which CPython also accepts, are not modelled;
no claim depends on them.)  `none` models the `ValueError`. -/
def pyInt (s : String) : Option Int :=
  let cs := s.toList
  let (sign, digits) :=
    match cs with
    | '-' :: rest => ((-1 : Int), rest)
    | '+' :: rest => ((1 : Int), rest)
    | _ => ((1 : Int), cs)
  if digits ≠ [] ∧ digits.all Char.isDigit then
    some (sign * (digitsToNat digits : Int))
  else none

/-- The message of the `ValueError` CPython raises for a non-numeric
`int()` argument (the argument is shown in quotes). -/
def pyIntValueErrorMsg (s : String) : String :=
  "invalid literal for int() with base 10: \x27" ++ s ++ "\x27"

/-- The outside-world interactions `_check_tcp` distinguishes once a
socket exists: `connect_ex` returns a code, the connect times out, name
resolution fails (`socket.gaierror`), or some other exception is raised
(lines 135-154). -/
inductive TcpEvent where
  | connect (code : Int) (elapsed_ms : Rat)
  | timeout
  | dnsFailure
  | otherError (cause : String)
deriving DecidableEq, Repr

/-- Result of one `_check_tcp` call, instrumented with whether the
`socket.socket(...)` constructor was reached and with the parsed
`(host, port)` pair when parsing succeeded. -/
structure TcpCheckResult where
  outcome : ProbeOutcome
  socketOpened : Bool
  parsed : Option (String × Int)
deriving DecidableEq, Repr

/-- `_check_tcp` (lines 122-154): the target is split on the last colon
(`rsplit(':', 1)` guarded by `':' in target`); a missing colon returns the
malformed-target failure before any socket exists; a non-numeric port makes
`int(port)` raise `ValueError`, caught by the generic `except Exception`
arm, again before any socket exists; otherwise a socket is opened and the
outcome follows the connect interaction. -/
def check_tcp (timeout : Rat) (target : String) (ev : TcpEvent) : TcpCheckResult :=
  match rsplitLast ':' target with
  | none =>
      { outcome := { success := false, response_time := 0
                     error_msg := some "Formato inválido. Use host:porta" }
        socketOpened := false
        parsed := none }
  | some (host, portStr) =>
      match pyInt portStr with
      | none =>
          { outcome := { success := false, response_time := 0
                         error_msg := some ("Error: " ++ pyIntValueErrorMsg portStr) }
            socketOpened := false
            parsed := none }
      | some port =>
          { outcome :=
              match ev with
              | .connect code elapsed_ms =>
                  if code = 0 then
                    { success := true, response_time := elapsed_ms, error_msg := none }
                  else
                    { success := false, response_time := elapsed_ms
                      error_msg :=
                        some ("Connection refused (code: " ++ toString code ++ ")") }
              | .timeout =>
                  { success := false, response_time := timeout * 1000
                    error_msg := some "Timeout" }
              | .dnsFailure =>
                  { success := false, response_time := 0
                    error_msg := some "DNS resolution failed" }
              | .otherError cause =>
                  { success := false, response_time := 0
                    error_msg := some ("Error: " ++ cause) }
            socketOpened := true
            parsed := some (host, port) }

/-- The outside-world interactions `_check_icmp` distinguishes: the ping
subprocess exits 0 (with an optional round-trip time parsed from its
output) or non-zero, the subprocess-level timeout expires, or some other
exception is raised (lines 169-195). -/
inductive IcmpEvent where
  | exitSuccess (elapsed_ms : Rat) (parsedTime : Option Rat)
  | exitFailure (elapsed_ms : Rat)
  | timeoutExpired
  | otherError (cause : String)
deriving DecidableEq, Repr

/-- `_check_icmp` (lines 156-195): exit code 0 is success, preferring the
round-trip time parsed from the tool output and falling back to the
wall-clock elapsed; non-zero exit is "Host unreachable"; the process-level
timeout reports `self.timeout * 1000`. -/
def check_icmp (timeout : Rat) (ev : IcmpEvent) : ProbeOutcome :=
  match ev with
  | .exitSuccess _ (some t) =>
      { success := true, response_time := t, error_msg := none }
  | .exitSuccess elapsed_ms none =>
      { success := true, response_time := elapsed_ms, error_msg := none }
  | .exitFailure elapsed_ms =>
      { success := false, response_time := elapsed_ms
        error_msg := some "Host unreachable" }
  | .timeoutExpired =>
      { success := false, response_time := timeout * 1000
        error_msg := some "Timeout" }
  | .otherError cause =>
      { success := false, response_time := 0
        error_msg := some ("Error: " ++ cause) }

/-- One environment bundling what each prober would experience if invoked,
so that `check_service` can be stated for every protocol selector. -/
structure ProbeEnv where
  httpEv : HttpEvent
  tcpEv : TcpEvent
  icmpEv : IcmpEvent
deriving DecidableEq, Repr

/-- `_check_service` (lines 197-206): dispatch on `self.check_type`; an
unknown selector raises `ValueError` (modelled as `Except.error` with the
message of line 206). -/
def check_service (check_type : String) (timeout : Rat) (target : String)
    (env : ProbeEnv) : Except String ProbeOutcome :=
  if check_type = "http" then .ok (check_http timeout env.httpEv)
  else if check_type = "tcp" then .ok (check_tcp timeout target env.tcpEv).outcome
  else if check_type = "icmp" then .ok (check_icmp timeout env.icmpEv)
  else .error ("Tipo de verificação inválido: " ++ check_type)

/-- Control position inside `ServiceMonitor.run` (lines 294-316).
`loopTop` is the `while self.running` test; `probing` is a
`_check_service` call in flight; `recording` holds the outcome the probe
returned, about to be folded into the stats and reported; `finalizing` is
the `finally` block (carrying the propagating exception, if any);
`terminated` is after `_print_statistics` returned. -/
inductive Phase where
  | loopTop
  | probing
  | recording (timestamp : String) (o : ProbeOutcome)
  | finalizing (exc : Option String)
  | terminated (exc : Option String)
deriving DecidableEq, Repr

/-- State of the running monitor: the `self.running` flag mutated by the
SIGINT handler, the control position, the accumulated stats and the number
of times `_print_statistics` has executed. -/
structure LoopState where
  running : Bool
  phase : Phase
  stats : MonitorStats
  summaries : Nat
deriving DecidableEq, Repr

/-- Atomic transitions of the monitor.  `signal` is the asynchronous
SIGINT delivery (lines 80-83): it only flips `self.running` and is enabled
in every phase; every other action is a synchronous piece of the loop body
and is enabled only at its control position. -/
inductive LoopAction where
  | checkFlag
  | probeReturn (timestamp : String) (o : ProbeOutcome)
  | probeFatal (msg : String)
  | recordAndReport
  | signal
  | finalize
deriving DecidableEq, Repr

/-- Small-step semantics of `run` under the SIGINT handler.  `none` means
the action is not enabled in the current phase.
* `checkFlag`: the `while self.running` test — enter the body or fall
  through to `finally`;
* `probeReturn`: `_check_service` returns its triple;
* `probeFatal`: `_check_service` raises `ValueError` (unknown selector);
  the exception propagates out of the `try`, so control moves to
  `finally` carrying it;
* `recordAndReport`: lines 298-313 — fold the outcome into the stats,
  print/log the status, sleep, and come back to the `while` test;
* `signal`: the SIGINT handler sets `self.running = False`;
* `finalize`: `_print_statistics()` in the `finally` block, after which
  `run` returns (or re-raises the carried exception). -/
def loopStep (s : LoopState) (a : LoopAction) : Option LoopState :=
  match a with
  | .signal => some { s with running := false }
  | .checkFlag =>
      match s.phase with
      | .loopTop =>
          some { s with phase := if s.running then .probing else .finalizing none }
      | _ => none
  | .probeReturn timestamp o =>
      match s.phase with
      | .probing => some { s with phase := .recording timestamp o }
      | _ => none
  | .probeFatal msg =>
      match s.phase with
      | .probing => some { s with phase := .finalizing (some msg) }
      | _ => none
  | .recordAndReport =>
      match s.phase with
      | .recording timestamp o =>
          some { s with stats := recordCheck s.stats timestamp o, phase := .loopTop }
      | _ => none
  | .finalize =>
      match s.phase with
      | .finalizing exc =>
          some { s with phase := .terminated exc, summaries := s.summaries + 1 }
      | _ => none

/-- Run a list of actions from a state; a disabled action makes the whole
trace invalid. -/
def runActions (s : LoopState) : List LoopAction → Option LoopState
  | [] => some s
  | a :: rest =>
      match loopStep s a with
      | some t => runActions t rest
      | none => none

/-- The state in which `run` enters its `try` block: flag up, at the
`while` test, fresh statistics, no summary printed yet. -/
def initLoopState (startTime : Rat) : LoopState :=
  { running := true, phase := .loopTop, stats := initStats startTime, summaries := 0 }

/-- `true` for every action other than a fatal probe. -/
def notFatalAct : LoopAction → Bool
  | .probeFatal _ => false
  | _ => true

/-- `true` when the trace contains no fatal-probe action (every
`_check_service` call returns normally, i.e. the protocol selector is one
of the three supported ones). -/
def noFatal (acts : List LoopAction) : Bool :=
  acts.all notFatalAct

/-- The three `RunningStats` book-keeping invariants of the spec. -/
def statsInvariant (s : MonitorStats) : Prop :=
  s.total_checks = s.successful_checks + s.failed_checks ∧
  s.response_times.length = s.successful_checks ∧
  s.downtime_events.length = s.failed_checks

instance (s : MonitorStats) : Decidable (statsInvariant s) := by
  unfold statsInvariant; infer_instance

/-- Demonstration outcome: a fast successful check. -/
def demoUp : ProbeOutcome :=
  { success := true, response_time := 20, error_msg := none }

/-- Demonstration outcome: a failed check with a connection error. -/
def demoDown : ProbeOutcome :=
  { success := false, response_time := 0
    error_msg := some "Connection Error: refused" }

/-- Demonstration trace: one successful tick, one failed tick, then SIGINT
during the sleep, loop exit, final summary. -/
def demoCancelActs : List LoopAction :=
  [.checkFlag, .probeReturn "t1" demoUp, .recordAndReport,
   .checkFlag, .probeReturn "t2" demoDown, .recordAndReport,
   .signal, .checkFlag, .finalize]

/-- The state the demonstration trace ends in. -/
def demoCancelFinal : LoopState :=
  { running := false
    phase := .terminated none
    stats :=
      { total_checks := 2, successful_checks := 1, failed_checks := 1
        response_times := [20]
        downtime_events := ["t2 - Connection Error: refused"]
        start_time := 0 }
    summaries := 1 }

/-- Demonstration trace: the first probe raises the unknown-protocol
`ValueError`; the `finally` block still prints the summary. -/
def demoFatalActs : List LoopAction :=
  [.checkFlag, .probeFatal "Tipo de verificação inválido: smtp", .finalize]

/-- The state the fatal demonstration trace ends in. -/
def demoFatalFinal : LoopState :=
  { running := true
    phase := .terminated (some "Tipo de verificação inválido: smtp")
    stats := initStats 0
    summaries := 1 }

/-- Demonstration trace for the post-signal run: the in-flight probe
returns, its record is appended, the flag is seen down, summary printed. -/
def c9Acts : List LoopAction :=
  [.probeReturn "t9" demoUp, .recordAndReport, .checkFlag, .finalize]

/-- The state the post-signal demonstration trace ends in. -/
def c9Final : LoopState :=
  { running := false
    phase := .terminated none
    stats :=
      { total_checks := 1, successful_checks := 1, failed_checks := 0
        response_times := [20], downtime_events := [], start_time := 0 }
    summaries := 1 }

/-- Error-class interactions of the HTTP prober (its `except` arms):
timeout, connection failure, unexpected exception. -/
def httpErrorEvent : HttpEvent → Bool
  | .response _ _ => false
  | _ => true

/-- Error-class interactions of the TCP prober: non-zero connect code,
timeout, DNS failure, unexpected exception. -/
def tcpErrorEvent : TcpEvent → Bool
  | .connect code _ => code != 0
  | _ => true

/-- Error-class interactions of the ICMP prober: unreachable host,
process timeout, unexpected exception. -/
def icmpErrorEvent : IcmpEvent → Bool
  | .exitSuccess _ _ => false
  | _ => true

/-- The summary has been printed exactly once after termination and never
before: the inductive invariant behind the exactly-once property. -/
def summariesOk (s : LoopState) : Prop :=
  match s.phase with
  | .terminated _ => s.summaries = 1
  | _ => s.summaries = 0

/-- Invariant of the post-signal run: once `self.running` is `false` with a
probe in flight over base statistics `base`, the flag stays down, at most
the in-flight outcome is ever folded into the stats, and the summary is
printed exactly when the machine terminates. -/
def cancelInv (base : MonitorStats) (s : LoopState) : Prop :=
  s.running = false ∧
  match s.phase with
  | .probing => s.stats = base ∧ s.summaries = 0
  | .recording _ _ => s.stats = base ∧ s.summaries = 0
  | .loopTop => (∃ ts o, s.stats = recordCheck base ts o) ∧ s.summaries = 0
  | .finalizing _ => (∃ ts o, s.stats = recordCheck base ts o) ∧ s.summaries = 0
  | .terminated _ => (∃ ts o, s.stats = recordCheck base ts o) ∧ s.summaries = 1

theorem recordCheck_total (s : MonitorStats) (ts : String) (o : ProbeOutcome) :
    (recordCheck s ts o).total_checks = s.total_checks + 1 := by
  cases h : o.success <;> simp [recordCheck, h]

theorem recordCheck_start_time (s : MonitorStats) (ts : String) (o : ProbeOutcome) :
    (recordCheck s ts o).start_time = s.start_time := by
  cases h : o.success <;> simp [recordCheck, h]

theorem recordCheck_invariant (s : MonitorStats) (ts : String) (o : ProbeOutcome)
    (hinv : statsInvariant s) : statsInvariant (recordCheck s ts o) := by
  obtain ⟨h1, h2, h3⟩ := hinv
  cases h : o.success <;>
    simp [recordCheck, statsInvariant, h, h1, h2, h3] <;> omega

theorem rsplitLastAux_of_not_mem (sep : Char) :
    ∀ cs : List Char, sep ∉ cs → rsplitLastAux sep cs = none := by
  intro cs
  induction cs with
  | nil => intro _; rfl
  | cons c rest ih =>
      intro hmem
      have hc : c ≠ sep := fun h => hmem (h ▸ List.mem_cons_self c rest)
      have hrest : sep ∉ rest := fun h => hmem (List.mem_cons_of_mem c h)
      simp [rsplitLastAux, ih hrest, hc]

theorem rsplitLastAux_split (sep : Char) (p : List Char) (hp : sep ∉ p) :
    ∀ h : List Char, rsplitLastAux sep (h ++ sep :: p) = some (h, p) := by
  intro h
  induction h with
  | nil => simp [rsplitLastAux, rsplitLastAux_of_not_mem sep p hp]
  | cons c rest ih => simp [rsplitLastAux, ih]

theorem rsplitLast_split (hst p : String) (hp : (':' : Char) ∉ p.toList) :
    rsplitLast ':' (hst ++ ":" ++ p) = some (hst, p) := by
  have hdata : (hst ++ ":" ++ p).toList = hst.toList ++ ':' :: p.toList := by
    simp [String.toList, String.data_append]
  simp only [rsplitLast, hdata, rsplitLastAux_split ':' p.toList hp hst.toList]
  rfl

theorem runActions_preserve (P : LoopState → Prop)
    (hstep : ∀ s a t, loopStep s a = some t → P s → P t) :
    ∀ (acts : List LoopAction) (s t : LoopState),
      runActions s acts = some t → P s → P t := by
  intro acts
  induction acts with
  | nil =>
      intro s t h hs
      simp [runActions] at h
      rwa [← h]
  | cons a rest ih =>
      intro s t h hs
      rw [runActions] at h
      cases hs1 : loopStep s a with
      | none => rw [hs1] at h; simp at h
      | some u =>
          rw [hs1] at h
          exact ih u t h (hstep s a u hs1 hs)


theorem runActions_preserve_noFatal (P : LoopState → Prop)
    (hstep : ∀ s a t, loopStep s a = some t →
      (∀ m, a ≠ .probeFatal m) → P s → P t) :
    ∀ (acts : List LoopAction), noFatal acts = true →
      ∀ s t : LoopState, runActions s acts = some t → P s → P t := by
  intro acts
  induction acts with
  | nil =>
      intro _ s t h hs
      simp [runActions] at h
      rwa [← h]
  | cons a rest ih =>
      intro hnf s t h hs
      have hnf2 : notFatalAct a = true ∧ noFatal rest = true := by
        simpa [noFatal, List.all_cons] using hnf
      have hna : ∀ m, a ≠ .probeFatal m := by
        intro m heq
        subst heq
        simp [notFatalAct] at hnf2
      rw [runActions] at h
      cases hs1 : loopStep s a with
      | none => rw [hs1] at h; simp at h
      | some u =>
          rw [hs1] at h
          exact ih hnf2.2 u t h (hstep s a u hs1 hna hs)

theorem loopStep_summariesOk (s : LoopState) (a : LoopAction) (t : LoopState)
    (hstep : loopStep s a = some t) (hs : summariesOk s) : summariesOk t := by
  obtain ⟨run, ph, st, sm⟩ := s
  cases a with
  | signal =>
      simp [loopStep] at hstep
      rw [← hstep]
      cases ph <;> simpa [summariesOk] using hs
  | checkFlag =>
      cases ph <;> simp [loopStep] at hstep
      rw [← hstep]
      cases run <;> simpa [summariesOk] using hs
  | probeReturn ts o =>
      cases ph <;> simp [loopStep] at hstep
      rw [← hstep]
      simpa [summariesOk] using hs
  | probeFatal m =>
      cases ph <;> simp [loopStep] at hstep
      rw [← hstep]
      simpa [summariesOk] using hs
  | recordAndReport =>
      cases ph <;> simp [loopStep] at hstep
      rw [← hstep]
      simpa [summariesOk] using hs
  | finalize =>
      cases ph <;> simp [loopStep] at hstep
      rw [← hstep]
      simpa [summariesOk] using hs

theorem loopStep_statsInvariant (s : LoopState) (a : LoopAction) (t : LoopState)
    (hstep : loopStep s a = some t) (hs : statsInvariant s.stats) :
    statsInvariant t.stats := by
  obtain ⟨run, ph, st, sm⟩ := s
  cases a with
  | signal =>
      simp [loopStep] at hstep
      rw [← hstep]
      exact hs
  | checkFlag =>
      cases ph <;> simp [loopStep] at hstep
      rw [← hstep]
      exact hs
  | probeReturn ts o =>
      cases ph <;> simp [loopStep] at hstep
      rw [← hstep]
      exact hs
  | probeFatal m =>
      cases ph <;> simp [loopStep] at hstep
      rw [← hstep]
      exact hs
  | recordAndReport =>
      cases ph <;> simp [loopStep] at hstep
      rw [← hstep]
      exact recordCheck_invariant _ _ _ hs
  | finalize =>
      cases ph <;> simp [loopStep] at hstep
      rw [← hstep]
      exact hs

theorem loopStep_cancelInv (base : MonitorStats) (s : LoopState) (a : LoopAction)
    (t : LoopState) (hstep : loopStep s a = some t)
    (hna : ∀ m, a ≠ .probeFatal m) (hs : cancelInv base s) : cancelInv base t := by
  obtain ⟨run, ph, st, sm⟩ := s
  obtain ⟨hrun, hrest⟩ := hs
  simp at hrun
  subst hrun
  cases a with
  | signal =>
      simp [loopStep] at hstep
      rw [← hstep]
      exact ⟨rfl, hrest⟩
  | checkFlag =>
      cases ph <;> simp [loopStep] at hstep
      rw [← hstep]
      exact ⟨rfl, by simpa [cancelInv] using hrest⟩
  | probeReturn ts o =>
      cases ph <;> simp [loopStep] at hstep
      rw [← hstep]
      exact ⟨rfl, by simpa [cancelInv] using hrest⟩
  | probeFatal m =>
      exact absurd rfl (hna m)
  | recordAndReport =>
      cases ph with
      | recording ts o =>
          simp [loopStep] at hstep
          rw [← hstep]
          obtain ⟨hst, hsm⟩ := hrest
          have hst2 : st = base := by simpa using hst
          have hsm2 : sm = 0 := by simpa using hsm
          exact ⟨rfl, ⟨ts, o, by simp [hst2]⟩, by simpa using hsm2⟩
      | loopTop => simp [loopStep] at hstep
      | probing => simp [loopStep] at hstep
      | finalizing e => simp [loopStep] at hstep
      | terminated e => simp [loopStep] at hstep
  | finalize =>
      cases ph <;> simp [loopStep] at hstep
      rw [← hstep]
      obtain ⟨hex, hsm⟩ := hrest
      have hsm2 : sm = 0 := by simpa using hsm
      exact ⟨rfl, by simpa using hex, by simpa using hsm2⟩

/-- C1: for every finite action trace the monitor loop can execute, every
reachable state satisfies the stats invariants: `total_checks` equals
`successful_checks + failed_checks`, `response_times` holds one sample per
successful check (SLOW included: `recordCheck` never consults the
threshold), and `downtime_events` holds one event per failed check. -/
theorem c1_running_stats_invariant (startTime : Rat) (acts : List LoopAction)
    (s : LoopState) (h : runActions (initLoopState startTime) acts = some s) :
    statsInvariant s.stats :=
  runActions_preserve (fun st => statsInvariant st.stats)
    loopStep_statsInvariant acts (initLoopState startTime) s h
    (by simp [initLoopState, initStats, statsInvariant])

theorem c1_running_stats_invariant_witness :
    statsInvariant demoCancelFinal.stats :=
  c1_running_stats_invariant 0 demoCancelActs demoCancelFinal (by decide)

/-- C2: the classification rule: a failed outcome is DOWN; a successful
one is SLOW exactly when its latency strictly exceeds the threshold and UP
otherwise; in particular latency exactly equal to the threshold is UP. -/
theorem c2_classifier_rule (o : ProbeOutcome) (threshold : Rat) :
    (o.success = false → classify o threshold = Verdict.DOWN) ∧
    (o.success = true → threshold < o.response_time →
      classify o threshold = Verdict.SLOW) ∧
    (o.success = true → o.response_time ≤ threshold →
      classify o threshold = Verdict.UP) ∧
    (o.success = true → o.response_time = threshold →
      classify o threshold = Verdict.UP) := by
  refine ⟨?_, ?_, ?_, ?_⟩
  · intro h1; simp [classify, h1]
  · intro h1 h2; simp [classify, h1, h2]
  · intro h1 h2; simp [classify, h1, not_lt.mpr h2]
  · intro h1 h2; simp [classify, h1, h2]

theorem c2_classifier_rule_witness :
    classify { success := true, response_time := 50, error_msg := none } 100 =
      Verdict.UP ∧
    classify { success := true, response_time := 150, error_msg := none } 100 =
      Verdict.SLOW ∧
    classify { success := false, response_time := 0, error_msg := some "x" } 100 =
      Verdict.DOWN ∧
    classify { success := true, response_time := 100, error_msg := none } 100 =
      Verdict.UP := by
  refine ⟨?_, ?_, ?_, ?_⟩
  · exact (c2_classifier_rule _ 100).2.2.1 rfl (by norm_num)
  · exact (c2_classifier_rule _ 100).2.1 rfl (by norm_num)
  · exact (c2_classifier_rule _ 100).1 rfl
  · exact (c2_classifier_rule _ 100).2.2.2 rfl rfl

/-- C3: every complete run of the monitor machine — the cancellation exit
and the fatal unknown-protocol exit alike — prints the final summary
exactly once. -/
theorem c3_summary_exactly_once (startTime : Rat) (acts : List LoopAction)
    (s : LoopState) (exc : Option String)
    (hrun : runActions (initLoopState startTime) acts = some s)
    (hterm : s.phase = Phase.terminated exc) :
    s.summaries = 1 := by
  have hfin : summariesOk s :=
    runActions_preserve summariesOk loopStep_summariesOk acts _ s hrun
      (by simp [initLoopState, summariesOk])
  simpa [summariesOk, hterm] using hfin

theorem c3_summary_exactly_once_witness :
    demoCancelFinal.summaries = 1 ∧ demoFatalFinal.summaries = 1 :=
  ⟨c3_summary_exactly_once 0 demoCancelActs demoCancelFinal none
      (by decide) (by decide),
   c3_summary_exactly_once 0 demoFatalActs demoFatalFinal
      (some "Tipo de verificação inválido: smtp") (by decide) (by decide)⟩

/-- C9: once the SIGINT flag has been lowered while a probe is in flight
over statistics `base`, every completed continuation of the run (with no
fatal probe) folds exactly the in-flight outcome into the stats — one more
record, `total_checks` grows by one — and prints the summary exactly once;
the flag is only consulted at the `while` test, never mid-probe. -/
theorem c9_cancellation_completes_probe (base : MonitorStats)
    (acts : List LoopAction) (s : LoopState) (exc : Option String)
    (hnf : noFatal acts = true)
    (hrun : runActions
      { running := false, phase := Phase.probing, stats := base, summaries := 0 }
      acts = some s)
    (hterm : s.phase = Phase.terminated exc) :
    (∃ ts o, s.stats = recordCheck base ts o) ∧
    s.stats.total_checks = base.total_checks + 1 ∧
    s.summaries = 1 := by
  have hfin : cancelInv base s :=
    runActions_preserve_noFatal (cancelInv base) (loopStep_cancelInv base)
      acts hnf _ s hrun ⟨rfl, rfl, rfl⟩
  unfold cancelInv at hfin
  rw [hterm] at hfin
  obtain ⟨-, ⟨ts, o, hst⟩, hsum⟩ := hfin
  exact ⟨⟨ts, o, hst⟩, by rw [hst]; exact recordCheck_total base ts o, hsum⟩

theorem c9_cancellation_completes_probe_witness :
    c9Final.stats.total_checks = (initStats 0).total_checks + 1 ∧
    c9Final.summaries = 1 :=
  (c9_cancellation_completes_probe (initStats 0) c9Acts c9Final none
    (by decide) (by decide) (by decide)).2

/-- C4: `_check_service` returns normally exactly for the three supported
protocol selectors and raises `ValueError` for every other one; within the
probers, every error-class interaction — timeout, connection failure, DNS
failure, malformed target, unreachable host, unexpected exception — is
caught and returned as an outcome with `success = false`. -/
theorem c4_errors_caught_fatal_iff (ct : String) (t : Rat) (tgt : String)
    (env : ProbeEnv) (hev : HttpEvent) (tev : TcpEvent) (iev : IcmpEvent) :
    ((∃ o, check_service ct t tgt env = Except.ok o) ↔
      (ct = "http" ∨ ct = "tcp" ∨ ct = "icmp")) ∧
    (httpErrorEvent hev = true → (check_http t hev).success = false) ∧
    (tcpErrorEvent tev = true → (check_tcp t tgt tev).outcome.success = false) ∧
    ((check_tcp t tgt tev).parsed = none →
      (check_tcp t tgt tev).outcome.success = false) ∧
    (icmpErrorEvent iev = true → (check_icmp t iev).success = false) := by
  refine ⟨?_, ?_, ?_, ?_, ?_⟩
  · by_cases h1 : ct = "http"
    · simp [check_service, h1]
    · by_cases h2 : ct = "tcp"
      · simp [check_service, h1, h2]
      · by_cases h3 : ct = "icmp"
        · simp [check_service, h1, h2, h3]
        · simp [check_service, h1, h2, h3]
  · intro h; cases hev <;> simp_all [httpErrorEvent, check_http]
  · intro h
    cases hsplit : rsplitLast ':' tgt with
    | none => simp [check_tcp, hsplit]
    | some hp =>
        obtain ⟨hh, pp⟩ := hp
        cases hpi : pyInt pp with
        | none => simp [check_tcp, hsplit, hpi]
        | some port =>
            cases tev with
            | connect code el =>
                simp only [tcpErrorEvent, bne_iff_ne, ne_eq] at h
                simp [check_tcp, hsplit, hpi, h]
            | timeout => simp [check_tcp, hsplit, hpi]
            | dnsFailure => simp [check_tcp, hsplit, hpi]
            | otherError c => simp [check_tcp, hsplit, hpi]
  · intro h
    cases hsplit : rsplitLast ':' tgt with
    | none => simp [check_tcp, hsplit]
    | some hp =>
        obtain ⟨hh, pp⟩ := hp
        cases hpi : pyInt pp with
        | none => simp [check_tcp, hsplit, hpi]
        | some port => simp [check_tcp, hsplit, hpi] at h
  · intro h; cases iev <;> simp_all [icmpErrorEvent, check_icmp]

theorem c4_errors_caught_fatal_iff_witness :
    (check_http 5 HttpEvent.timeout).success = false ∧
    (check_tcp 5 "no-port-here" TcpEvent.timeout).outcome.success = false ∧
    (check_icmp 5 IcmpEvent.timeoutExpired).success = false := by
  have h := c4_errors_caught_fatal_iff "http" 5 "no-port-here"
    ⟨HttpEvent.timeout, TcpEvent.timeout, IcmpEvent.timeoutExpired⟩
    HttpEvent.timeout TcpEvent.timeout IcmpEvent.timeoutExpired
  exact ⟨h.2.1 rfl, h.2.2.1 rfl, h.2.2.2.2 rfl⟩

/-- C5 fails as stated: a failed check whose outcome carries no error text
gets a downtime event rendering the error field as the literal "None"
(Python f-string of `None`), not as the "Unknown error" label the display
fallback uses. -/
theorem c5_counterexample :
    (recordCheck (initStats 0) "2024-01-01 00:00:00.000"
        { success := false, response_time := 0, error_msg := none }).downtime_events =
      ["2024-01-01 00:00:00.000 - None"] ∧
    ("2024-01-01 00:00:00.000 - None" : String) ≠
      "2024-01-01 00:00:00.000 - " ++ displayErrorText none := by
  constructor
  · decide
  · decide

/-- C5 (amended): every failed check appends a downtime event made of the
timestamp and the f-string rendering of the error field — the actual error
text when present, the literal "None" when absent; the "Unknown error"
fallback belongs to the live status display, not to the accumulator;
moreover every failure outcome any prober produces carries error text, so
accumulator events always contain the check's real error message. -/
theorem c5_downtime_event_text (st : MonitorStats) (ts : String)
    (o : ProbeOutcome) (t : Rat) (tgt : String) (hev : HttpEvent)
    (tev : TcpEvent) (iev : IcmpEvent) :
    (o.success = false →
      (recordCheck st ts o).downtime_events =
        st.downtime_events ++ [ts ++ " - " ++ pyStrOfOpt o.error_msg]) ∧
    (∀ m, o.error_msg = some m → pyStrOfOpt o.error_msg = m) ∧
    displayErrorText none = "Unknown error" ∧
    ((check_http t hev).success = false →
      (check_http t hev).error_msg.isSome = true) ∧
    ((check_tcp t tgt tev).outcome.success = false →
      (check_tcp t tgt tev).outcome.error_msg.isSome = true) ∧
    ((check_icmp t iev).success = false →
      (check_icmp t iev).error_msg.isSome = true) := by
  refine ⟨?_, ?_, rfl, ?_, ?_, ?_⟩
  · intro h; simp [recordCheck, h]
  · intro m hm; simp [pyStrOfOpt, hm]
  · intro hf
    cases hev with
    | response status el =>
        by_cases h : 200 ≤ status ∧ status < 400 <;>
          simp [check_http, h] at hf ⊢
    | timeout => simp [check_http]
    | connectionError c => simp [check_http]
    | otherError c => simp [check_http]
  · intro hf
    cases hsplit : rsplitLast ':' tgt with
    | none => simp [check_tcp, hsplit]
    | some hp =>
        obtain ⟨hh, pp⟩ := hp
        cases hpi : pyInt pp with
        | none => simp [check_tcp, hsplit, hpi]
        | some port =>
            cases tev with
            | connect code el =>
                by_cases h : code = 0 <;>
                  simp [check_tcp, hsplit, hpi, h] at hf ⊢
            | timeout => simp [check_tcp, hsplit, hpi]
            | dnsFailure => simp [check_tcp, hsplit, hpi]
            | otherError c => simp [check_tcp, hsplit, hpi]
  · intro hf
    cases iev with
    | exitSuccess el pt => cases pt <;> simp [check_icmp] at hf
    | exitFailure el => simp [check_icmp]
    | timeoutExpired => simp [check_icmp]
    | otherError c => simp [check_icmp]

theorem c5_downtime_event_text_witness :
    (recordCheck (initStats 0) "t5"
        { success := false, response_time := 0
          error_msg := some "Connection Error: refused" }).downtime_events =
      [("t5" : String) ++ " - " ++
        pyStrOfOpt (some "Connection Error: refused")] := by
  have h := c5_downtime_event_text (initStats 0) "t5"
    { success := false, response_time := 0
      error_msg := some "Connection Error: refused" }
    5 "x" HttpEvent.timeout TcpEvent.timeout IcmpEvent.timeoutExpired
  simpa [initStats] using h.1 rfl

/-- C6: the uptime percentage is `successful/total * 100` whenever at
least one check has run and `0.0` when none has — the zero case is
returned before any division is attempted. -/
theorem c6_uptime_percentage (s : MonitorStats) :
    (s.total_checks = 0 → get_uptime_percentage s = 0) ∧
    (s.total_checks ≠ 0 →
      get_uptime_percentage s =
        (s.successful_checks : Rat) / (s.total_checks : Rat) * 100) := by
  constructor <;> intro h <;> simp [get_uptime_percentage, h]

theorem c6_uptime_percentage_witness :
    get_uptime_percentage (initStats 0) = 0 ∧
    get_uptime_percentage demoCancelFinal.stats = 50 := by
  constructor
  · exact (c6_uptime_percentage (initStats 0)).1 rfl
  · have h := (c6_uptime_percentage demoCancelFinal.stats).2 (by decide)
    rw [h]
    norm_num [demoCancelFinal]

/-- C7: an HTTP check succeeds exactly when a response with a status code
in `[200, 400)` arrives; a timeout yields a failure whose reported latency
is the configured timeout converted to milliseconds with error "Timeout";
a connection-level failure yields latency `0` with the underlying cause in
the error text. -/
theorem c7_http_check (t : Rat) (ev : HttpEvent) (cause : String) :
    ((check_http t ev).success = true ↔
      ∃ status elapsed_ms, ev = HttpEvent.response status elapsed_ms ∧
        200 ≤ status ∧ status < 400) ∧
    check_http t HttpEvent.timeout =
      { success := false, response_time := t * 1000
        error_msg := some "Timeout" } ∧
    check_http t (HttpEvent.connectionError cause) =
      { success := false, response_time := 0
        error_msg := some ("Connection Error: " ++ cause) } := by
  refine ⟨?_, rfl, rfl⟩
  cases ev with
  | response status el =>
      by_cases h : 200 ≤ status ∧ status < 400 <;> simp [check_http, h]
  | timeout => simp [check_http]
  | connectionError c => simp [check_http]
  | otherError c => simp [check_http]

theorem c7_http_check_witness :
    (check_http 5 (HttpEvent.response 200 30)).success = true ∧
    (check_http 5 (HttpEvent.response 404 30)).success = false ∧
    check_http 5 HttpEvent.timeout =
      { success := false, response_time := 5 * 1000
        error_msg := some "Timeout" } := by
  refine ⟨?_, ?_, (c7_http_check 5 HttpEvent.timeout "x").2.1⟩
  · exact (c7_http_check 5 (HttpEvent.response 200 30) "x").1.mpr
      ⟨200, 30, rfl, by norm_num, by norm_num⟩
  · have h := (c7_http_check 5 (HttpEvent.response 404 30) "x").1
    by_contra hc
    simp at hc
    obtain ⟨status, el, heq, h2, h3⟩ := h.mp hc
    cases heq
    omega

/-- C8: the TCP target is split on its last colon into host and numeric
port ("example.com:5432" gives host "example.com" and port 5432, and in
general any string whose suffix after the final colon is colon-free splits
there); a target with no colon, or one whose port is non-numeric, yields a
failure with latency `0` and a descriptive error with no socket opened. -/
theorem c8_tcp_target_parsing (t : Rat) (tgt hst p2 : String)
    (ev : TcpEvent) (hp : String × String) :
    (rsplitLast ':' "example.com:5432" = some ("example.com", "5432") ∧
     pyInt "5432" = some 5432 ∧
     (check_tcp t "example.com:5432" ev).parsed = some ("example.com", 5432)) ∧
    ((':' : Char) ∉ p2.toList →
      rsplitLast ':' (hst ++ ":" ++ p2) = some (hst, p2)) ∧
    (rsplitLast ':' tgt = none →
      check_tcp t tgt ev =
        { outcome := { success := false, response_time := 0
                       error_msg := some "Formato inválido. Use host:porta" }
          socketOpened := false, parsed := none }) ∧
    (rsplitLast ':' tgt = some hp → pyInt hp.2 = none →
      check_tcp t tgt ev =
        { outcome := { success := false, response_time := 0
                       error_msg := some ("Error: " ++ pyIntValueErrorMsg hp.2) }
          socketOpened := false, parsed := none }) := by
  refine ⟨⟨by decide, by decide, ?_⟩, rsplitLast_split hst p2, ?_, ?_⟩
  · cases ev <;> rfl
  · intro h
    simp [check_tcp, h]
  · intro h1 h2
    obtain ⟨hh, pp⟩ := hp
    simp only at h2
    simp [check_tcp, h1, h2]

theorem c8_tcp_target_parsing_witness :
    (check_tcp 5 "example.com:5432" TcpEvent.timeout).parsed =
      some ("example.com", 5432) ∧
    check_tcp 5 "no-port-here" TcpEvent.timeout =
      { outcome := { success := false, response_time := 0
                     error_msg := some "Formato inválido. Use host:porta" }
        socketOpened := false, parsed := none } ∧
    check_tcp 5 "example.com:port" TcpEvent.timeout =
      { outcome := { success := false, response_time := 0
                     error_msg := some ("Error: " ++ pyIntValueErrorMsg "port") }
        socketOpened := false, parsed := none } := by
  refine ⟨?_, ?_, ?_⟩
  · exact (c8_tcp_target_parsing 5 "x" "y" "z" TcpEvent.timeout ("a", "b")).1.2.2
  · exact (c8_tcp_target_parsing 5 "no-port-here" "y" "z" TcpEvent.timeout
      ("a", "b")).2.2.1 (by decide)
  · exact (c8_tcp_target_parsing 5 "example.com:port" "y" "z" TcpEvent.timeout
      ("example.com", "port")).2.2.2 (by decide) (by decide)

/-- C10: recording one check only touches the fields of its own branch:
a successful check leaves `failed_checks` and `downtime_events` untouched,
a failed check leaves `successful_checks` and `response_times` untouched,
and `start_time` is never written. -/
theorem c10_record_frame (s : MonitorStats) (ts : String) (o : ProbeOutcome) :
    (recordCheck s ts o).start_time = s.start_time ∧
    (o.success = true →
      (recordCheck s ts o).failed_checks = s.failed_checks ∧
      (recordCheck s ts o).downtime_events = s.downtime_events) ∧
    (o.success = false →
      (recordCheck s ts o).successful_checks = s.successful_checks ∧
      (recordCheck s ts o).response_times = s.response_times) := by
  refine ⟨recordCheck_start_time s ts o, ?_, ?_⟩ <;>
    intro h <;> simp [recordCheck, h]

theorem c10_record_frame_witness :
    (recordCheck (initStats 7) "t10"
        { success := true, response_time := 3, error_msg := none }).start_time =
      (initStats 7).start_time ∧
    (recordCheck (initStats 7) "t10"
        { success := true, response_time := 3, error_msg := none }).downtime_events =
      (initStats 7).downtime_events := by
  have h := c10_record_frame (initStats 7) "t10"
    { success := true, response_time := 3, error_msg := none }
  exact ⟨h.1, (h.2.1 rfl).2⟩
